import Mathlib

/-!
Shallow embedding of `py3-wiiboard.py`: a Bluetooth driver for the Wii
balance board.  Packets are byte lists; Python ints are `Nat`, Python
floats are modelled by `ℚ`; the mutable driver object becomes an explicit
state record threaded through step functions.  Loop-local variables of
`Wiiboard.loop` that persist across iterations (`length`, and the
bound-ness of the `cal` lambda) are carried in the state as an `Option`;
a `none` there corresponds to Python's `UnboundLocalError`.  Exceptions
raised mid-handler are modelled by returning the partially updated state
together with `some errorName`.
-/

namespace Wiiboard

/-- Python slice `xs[a:b]` on a byte list. -/
def pySlice (xs : List Nat) (a b : Nat) : List Nat :=
  (xs.take b).drop a

/-- Big-endian bytes-to-int `b2i` (`int.from_bytes(b, "big")`); on an
int it is the identity, which the fold also gives for one byte. -/
def b2i (bs : List Nat) : Nat :=
  bs.foldl (fun acc b => 256 * acc + b) 0

/-! Module-level constants of the source file. -/

def Minutes : Nat := 20
def Seconds : Nat := 0
def N_SAMPLES : Nat := 100 * (Seconds + 60 * Minutes)
def N_LOOP : Nat := 0
def BATTERY_MAX : ℚ := 200
def TOP_RIGHT : Nat := 0
def BOTTOM_RIGHT : Nat := 1
def TOP_LEFT : Nat := 2
def BOTTOM_LEFT : Nat := 3
def CONTINUOUS_REPORTING : Nat := 0x04
def COMMAND_REPORTING : Nat := 0x12
def COMMAND_LIGHT : Nat := 0x11
def COMMAND_READ_REGISTER : Nat := 0x17
def COMMAND_REGISTER : Nat := 0x16
def COMMAND_REQUEST_STATUS : Nat := 0x15
def INPUT_STATUS : Nat := 0x20
def INPUT_READ_DATA : Nat := 0x21
def EXTENSION_8BYTES : Nat := 0x32
def BUTTON_DOWN_MASK : Nat := 0x08
def LED1_MASK : Nat := 0x10

/-- The module constants `N_SAMPLES` (deque capacity and epoch size) and
`N_LOOP` (maximum epoch count) treated as the configuration surface. -/
structure Config where
  nsamples : Nat
  nloopMax : Nat
deriving Repr, DecidableEq

def defaultConfig : Config := ⟨N_SAMPLES, N_LOOP⟩

/-- Events observable through the driver's callbacks. -/
inductive Ev where
  | pressed
  | released
  | calibrated
deriving Repr, DecidableEq

/-- The dict returned by `get_mass`, one kilogram value per corner. -/
structure MassDict where
  top_right : ℚ
  bottom_right : ℚ
  top_left : ℚ
  bottom_left : ℚ
deriving Repr, DecidableEq

/-- Driver state of a `WiiboardPrint` instance: the `Wiiboard` fields, the
`WiiboardSampling.samples` deque, the `WiiboardPrint.nloop` counter, the
persisted loop-local `length` of `Wiiboard.loop`, and observation logs for
outbound control-channel messages, callback events and csv rows. -/
structure PState where
  calibration : List (List ℚ)
  calibration_requested : Bool
  light_state : Bool
  button_down : Bool
  battery : ℚ
  running : Bool
  controlOpen : Bool
  receiveOpen : Bool
  samples : List MassDict
  nloop : Nat
  loopLength : Option Nat
  sent : List (List Nat)
  events : List Ev
  csvRows : List (List ℚ)
deriving Repr, DecidableEq

/-- Row of sentinel values `[1e4] * 4`. -/
def sentinelRow : List ℚ := [10000, 10000, 10000, 10000]

/-- Name of the Python exception raised by indexing a too-short packet. -/
def indexErrorMsg : String := "IndexError"

/-- Name of the Python exception raised when the dedented calibration
dispatch reads the loop-local `length` before any assignment. -/
def unboundLocalErrorMsg : String := "UnboundLocalError"

/-- State after `__init__` (before `connect`): `[[1e4]*4]*3` table, flags
cleared, sockets open, empty deque, `nloop = 0`. -/
def initState : PState where
  calibration := [sentinelRow, sentinelRow, sentinelRow]
  calibration_requested := false
  light_state := false
  button_down := false
  battery := 0
  running := true
  controlOpen := true
  receiveOpen := true
  samples := []
  nloop := 0
  loopLength := none
  sent := []
  events := []
  csvRows := []

/-! Outbound control-channel messages: `send` frames with `b'\x52'`. -/

def reportingMsg : List Nat := [0x52, COMMAND_REPORTING, CONTINUOUS_REPORTING, EXTENSION_8BYTES]

def lightMsg (on_off : Bool) : List Nat :=
  [0x52, COMMAND_LIGHT, if on_off then 0x10 else 0x00]

def statusMsg : List Nat := [0x52, COMMAND_REQUEST_STATUS, 0x00]

def readRegisterMsg : List Nat :=
  [0x52, COMMAND_READ_REGISTER, 0x04, 0xA4, 0x00, 0x24, 0x00, 0x18]

def registerMsg : List Nat :=
  [0x52, COMMAND_REGISTER, 0x04, 0xA4, 0x00, 0x40, 0x00]

/-- Model of `Wiiboard.connect`: sends the calibration register-read, sets the
`calibration_requested` flag, sends the extension register-write; the bare
expression statement `self.status` evaluates the bound method without
calling it, so no status request goes out; then `self.light(0)` sends a
light-off command. -/
def connect (st : PState) : PState :=
  { st with
    sent := st.sent ++ [readRegisterMsg, registerMsg, lightMsg false]
    calibration_requested := true }

/-- Model of `Wiiboard.calc_mass`: piecewise-linear interpolation of a raw corner
reading through the three-row calibration table. -/
def calc_mass (calibration : List (List ℚ)) (raw : ℚ) (pos : Nat) : ℚ :=
  if raw < (calibration.getD 0 []).getD pos 0 then
    0
  else if raw < (calibration.getD 1 []).getD pos 0 then
    17 * ((raw - (calibration.getD 0 []).getD pos 0) /
      ((calibration.getD 1 []).getD pos 0 - (calibration.getD 0 []).getD pos 0))
  else
    17 + 17 * ((raw - (calibration.getD 1 []).getD pos 0) /
      ((calibration.getD 2 []).getD pos 0 - (calibration.getD 1 []).getD pos 0))

/-- The middle branch formula of `calc_mass` (`cal[0] <= raw < cal[1]`). -/
def massBranchMid (c0 c1 raw : ℚ) : ℚ :=
  17 * ((raw - c0) / (c1 - c0))

/-- The upper branch formula of `calc_mass` (`raw >= cal[1]`). -/
def massBranchHigh (c1 c2 raw : ℚ) : ℚ :=
  17 + 17 * ((raw - c1) / (c2 - c1))

/-- Model of `Wiiboard.check_button`: returns the new `button_down` flag and the
edge events emitted by `on_pressed` / `on_released`. -/
def check_button (button_down : Bool) (state : Nat) : Bool × List Ev :=
  if state = BUTTON_DOWN_MASK then
    if !button_down then (true, [Ev.pressed]) else (button_down, [])
  else if button_down then (false, [Ev.released])
  else (button_down, [])

/-- Feed a sequence of decoded button masks through `check_button`,
collecting emitted events. -/
def runButtons (button_down : Bool) (masks : List Nat) : Bool × List Ev :=
  masks.foldl
    (fun acc m =>
      let r := check_button acc.1 m
      (r.1, acc.2 ++ r.2))
    (button_down, [])

/-- The `cal` lambda: 8 bytes to 4 big-endian 16-bit unsigned integers. -/
def cal8 (d : List Nat) : List ℚ :=
  [(b2i (pySlice d 0 2) : ℚ), (b2i (pySlice d 2 4) : ℚ),
   (b2i (pySlice d 4 6) : ℚ), (b2i (pySlice d 6 8) : ℚ)]

/-- Model of `Wiiboard.get_mass` on the 8-byte raw corner payload. -/
def get_mass (calibration : List (List ℚ)) (data : List Nat) : MassDict where
  top_right := calc_mass calibration (b2i (pySlice data 0 2) : ℚ) TOP_RIGHT
  bottom_right := calc_mass calibration (b2i (pySlice data 2 4) : ℚ) BOTTOM_RIGHT
  top_left := calc_mass calibration (b2i (pySlice data 4 6) : ℚ) TOP_LEFT
  bottom_left := calc_mass calibration (b2i (pySlice data 6 8) : ℚ) BOTTOM_LEFT

/-- Model of `Wiiboard.on_status`: re-issues the continuous reporting command and
turns the light on. -/
def onStatus (st : PState) : PState :=
  { st with sent := st.sent ++ [reportingMsg, lightMsg true] }

/-- Model of `Wiiboard.on_calibrated`: logs, prints, and turns the light on; the
`Ev.calibrated` entry records that the calibration-complete callback
fired. -/
def onCalibrated (st : PState) : PState :=
  { st with sent := st.sent ++ [lightMsg true], events := st.events ++ [Ev.calibrated] }

/-- Model of `Wiiboard.close`: clears `running` and closes both sockets. -/
def close (st : PState) : PState :=
  { st with running := false, receiveOpen := false, controlOpen := false }

/-- Model of `collections.deque(_, maxlen)` append: a new element is appended and,
if the length would exceed `maxlen`, elements are discarded from the
opposite end. -/
def dequeAppend (maxlen : Nat) (xs : List MassDict) (x : MassDict) : List MassDict :=
  let ys := xs ++ [x]
  if maxlen < ys.length then ys.drop (ys.length - maxlen) else ys

/-- Model of `WiiboardPrint.on_sample`: on a full window, clear the deque, send a
status request, bump `nloop`; close the driver once `nloop` exceeds the
maximum, otherwise send light-off and pause. -/
def on_sample (cfg : Config) (st : PState) : PState :=
  if st.samples.length = cfg.nsamples then
    let st' := { st with
      samples := []
      sent := st.sent ++ [statusMsg]
      nloop := st.nloop + 1 }
    if cfg.nloopMax < st'.nloop then close st'
    else { st' with sent := st'.sent ++ [lightMsg false] }
  else st

/-- Model of `WiiboardSampling.on_mass`: append the sample to the deque, then run
the (overridden) `on_sample`. -/
def on_mass (cfg : Config) (st : PState) (m : MassDict) : PState :=
  on_sample cfg { st with samples := dequeAppend cfg.nsamples st.samples m }

/-- One iteration of `Wiiboard.loop` on a received packet, for a
`WiiboardPrint` instance.  Returns the updated state plus `some error`
when the Python code would raise: indexing `data[4]` on a short packet
(`IndexError`), or reaching the dedented `if length == 16:` dispatch with
the loop-local `length` never assigned (`UnboundLocalError`).  Note that
in the source that dispatch sits OUTSIDE the `if self.calibration_requested:`
guard, so it also runs, on stale locals, when the flag is clear. -/
def handlePacket (cfg : Config) (st : PState) (data : List Nat) : PState × Option String :=
  if data.length < 2 then (st, none)
  else
    let input_type := data.getD 1 0
    if input_type = INPUT_STATUS then
      let st1 := { st with battery := (b2i (pySlice data 7 9) : ℚ) / BATTERY_MAX }
      if data.length ≤ 4 then (st1, some indexErrorMsg)
      else
        let st2 := { st1 with
          light_state := decide (data.getD 4 0 &&& LED1_MASK = LED1_MASK) }
        (onStatus st2, none)
    else if input_type = INPUT_READ_DATA then
      if st.calibration_requested then
        if data.length ≤ 4 then (st, some indexErrorMsg)
        else
          let length := data.getD 4 0 / 16 + 1
          let d := pySlice data 7 (7 + length)
          let st1 := { st with loopLength := some length }
          if length = 16 then
            ({ st1 with
              calibration := [cal8 (pySlice d 0 8), cal8 (pySlice d 8 16), sentinelRow] },
             none)
          else if length < 16 then
            (onCalibrated { st1 with
              calibration := st1.calibration.set 2 (cal8 (pySlice d 0 8))
              calibration_requested := false },
             none)
          else (st1, none)
      else
        match st.loopLength with
        | none => (st, some unboundLocalErrorMsg)
        | some length =>
          if length = 16 then
            ({ st with
              calibration := [cal8 (pySlice data 0 8), cal8 (pySlice data 8 16), sentinelRow] },
             none)
          else if length < 16 then
            (onCalibrated { st with
              calibration := st.calibration.set 2 (cal8 (pySlice data 0 8))
              calibration_requested := false },
             none)
          else (st, none)
    else if input_type = EXTENSION_8BYTES then
      let r := check_button st.button_down (b2i (pySlice data 2 4))
      let st1 := { st with button_down := r.1, events := st.events ++ r.2 }
      let m := get_mass st1.calibration (pySlice data 4 12)
      let st2 := { st1 with
        csvRows := st1.csvRows ++ [[m.top_right, m.bottom_right, m.top_left, m.bottom_left]] }
      (on_mass cfg st2 m, none)
    else (st, none)

/-! Concrete packets and states used to exercise the definitions.  The
calibration values are the factory values quoted in the source comment:
`[[5944, 3314, 12024, 4221], [7688, 4994, 13794, 5967], [9449, 6683, 15565, 7716]]`. -/

/-- First calibration fragment: report tag `0x21`, length byte `0xF0`
(high nibble 15, so fragment length 16), then the 16 bytes of the 0 kg
and 17 kg rows. -/
def pktCal1 : List Nat :=
  [0xA1, 0x21, 0x00, 0x00, 0xF0, 0x00, 0x00,
   0x17, 0x38, 0x0C, 0xF2, 0x2E, 0xF8, 0x10, 0x7D,
   0x1E, 0x08, 0x13, 0x82, 0x35, 0xE2, 0x17, 0x4F]

/-- Second calibration fragment: length byte `0x70` (fragment length 8),
then the 8 bytes of the 34 kg row. -/
def pktCal2 : List Nat :=
  [0xA1, 0x21, 0x00, 0x00, 0x70, 0x00, 0x00,
   0x24, 0xE9, 0x1A, 0x1B, 0x3C, 0xCD, 0x1E, 0x24]

/-- The factory calibration table encoded by `pktCal1` and `pktCal2`. -/
def factoryCal : List (List ℚ) :=
  [[5944, 3314, 12024, 4221], [7688, 4994, 13794, 5967], [9449, 6683, 15565, 7716]]

/-- Driver state after `connect` and both calibration fragments. -/
def calibratedState : PState :=
  (handlePacket defaultConfig
    (handlePacket defaultConfig (connect initState) pktCal1).1 pktCal2).1

/-- Simple non-degenerate calibration table used in concrete checks. -/
def demoCal : List (List ℚ) :=
  [[100, 100, 100, 100], [200, 200, 200, 200], [300, 300, 300, 300]]

/-- A concrete weight sample. -/
def demoMass : MassDict := ⟨0, 0, 0, 0⟩

/-- Status packet whose battery field (bytes 7-8, big-endian) is 400. -/
def pktStatus400 : List Nat := [0xA1, 0x20, 0x00, 0x00, 0x00, 0x00, 0x00, 0x01, 0x90]

/-- Status packet whose battery field (bytes 7-8, big-endian) is 100. -/
def pktStatus100 : List Nat := [0xA1, 0x20, 0x00, 0x00, 0x00, 0x00, 0x00, 0x00, 0x64]

/-! Claim theorems. -/

/-- C1: for every calibration table, raw reading and corner position,
`calc_mass` follows the three-branch piecewise-linear rule: below
`cal[0]` it returns 0; between `cal[0]` and `cal[1]` it returns
`17 * (raw - cal[0]) / (cal[1] - cal[0])`; otherwise it returns
`17 + 17 * (raw - cal[1]) / (cal[2] - cal[1])`. -/
theorem calc_mass_piecewise (calibration : List (List ℚ)) (raw : ℚ) (pos : Nat) :
    (raw < (calibration.getD 0 []).getD pos 0 → calc_mass calibration raw pos = 0) ∧
    (¬ raw < (calibration.getD 0 []).getD pos 0 →
      raw < (calibration.getD 1 []).getD pos 0 →
      calc_mass calibration raw pos =
        17 * ((raw - (calibration.getD 0 []).getD pos 0) /
          ((calibration.getD 1 []).getD pos 0 - (calibration.getD 0 []).getD pos 0))) ∧
    (¬ raw < (calibration.getD 0 []).getD pos 0 →
      ¬ raw < (calibration.getD 1 []).getD pos 0 →
      calc_mass calibration raw pos =
        17 + 17 * ((raw - (calibration.getD 1 []).getD pos 0) /
          ((calibration.getD 2 []).getD pos 0 - (calibration.getD 1 []).getD pos 0))) := by
  refine ⟨fun h0 => ?_, fun h0 h1 => ?_, fun h0 h1 => ?_⟩
  · rw [calc_mass, if_pos h0]
  · rw [calc_mass, if_neg h0, if_pos h1]
  · rw [calc_mass, if_neg h0, if_neg h1]

/-- Witness for C1: the three branches evaluated on the demo table at
raw readings 50, 150 and 250 for corner 0. -/
theorem calc_mass_piecewise_witness :
    calc_mass demoCal 50 0 = 0 ∧
    calc_mass demoCal 150 0 = 17 * ((150 - 100) / (200 - 100)) ∧
    calc_mass demoCal 250 0 = 17 + 17 * ((250 - 200) / (300 - 200)) :=
  ⟨(calc_mass_piecewise demoCal 50 0).1 (by norm_num [demoCal]),
   (calc_mass_piecewise demoCal 150 0).2.1 (by norm_num [demoCal]) (by norm_num [demoCal]),
   (calc_mass_piecewise demoCal 250 0).2.2 (by norm_num [demoCal]) (by norm_num [demoCal])⟩

/-- C8: from the not-pressed state, the mask sequence down, down, down,
up, up emits exactly one pressed event then exactly one released event,
with no duplicates, and ends not pressed. -/
theorem button_edge_sequence :
    runButtons false [BUTTON_DOWN_MASK, BUTTON_DOWN_MASK, BUTTON_DOWN_MASK, 0, 0] =
      (false, [Ev.pressed, Ev.released]) := by
  decide

/-- C9: given non-degenerate calibration `cal[0] < cal[1] < cal[2]`, the
middle-branch and upper-branch formulas of `calc_mass` both evaluate to
17 at the boundary `raw = cal[1]`, and `calc_mass` itself returns 17
there. -/
theorem mass_continuous_at_mid_boundary (t : List (List ℚ)) (pos : Nat)
    (h01 : (t.getD 0 []).getD pos 0 < (t.getD 1 []).getD pos 0)
    (h12 : (t.getD 1 []).getD pos 0 < (t.getD 2 []).getD pos 0) :
    massBranchMid ((t.getD 0 []).getD pos 0) ((t.getD 1 []).getD pos 0)
      ((t.getD 1 []).getD pos 0) = 17 ∧
    massBranchHigh ((t.getD 1 []).getD pos 0) ((t.getD 2 []).getD pos 0)
      ((t.getD 1 []).getD pos 0) = 17 ∧
    calc_mass t ((t.getD 1 []).getD pos 0) pos = 17 := by
  have hne : (t.getD 1 []).getD pos 0 - (t.getD 0 []).getD pos 0 ≠ 0 :=
    sub_ne_zero.mpr (ne_of_gt h01)
  refine ⟨?_, ?_, ?_⟩
  · rw [massBranchMid, div_self hne]; ring
  · rw [massBranchHigh, sub_self, zero_div, mul_zero, add_zero]
  · rw [calc_mass, if_neg (not_lt.mpr (le_of_lt h01)), if_neg (lt_irrefl _),
      sub_self, zero_div, mul_zero, add_zero]

/-- Witness for C9: the boundary value on the demo table at corner 0. -/
theorem mass_continuous_at_mid_boundary_witness :
    massBranchMid ((demoCal.getD 0 []).getD 0 0) ((demoCal.getD 1 []).getD 0 0)
      ((demoCal.getD 1 []).getD 0 0) = 17 ∧
    massBranchHigh ((demoCal.getD 1 []).getD 0 0) ((demoCal.getD 2 []).getD 0 0)
      ((demoCal.getD 1 []).getD 0 0) = 17 ∧
    calc_mass demoCal ((demoCal.getD 1 []).getD 0 0) 0 = 17 :=
  mass_continuous_at_mid_boundary demoCal 0 (by norm_num [demoCal]) (by norm_num [demoCal])

/-- C10: after any single `check_button` call with mask `m`, the stored
`button_down` flag equals the test `m = BUTTON_DOWN_MASK`, whatever the
prior flag value was. -/
theorem button_flag_tracks_mask (button_down : Bool) (m : Nat) :
    (check_button button_down m).1 = decide (m = BUTTON_DOWN_MASK) := by
  cases button_down <;> by_cases h : m = BUTTON_DOWN_MASK <;>
    simp [check_button, h]

/-- C2 fails on the code: in the source the `if length == 16:` dispatch is
dedented out of the `if self.calibration_requested:` guard, so a
calibration packet arriving with the flag clear is still dispatched on the
stale loop-local `length`.  Concretely, after calibration has completed
(`calibration_requested = false`, stale `length = 8`), a retransmitted
first fragment overwrites row 2 of the calibration table with values
decoded from the raw packet header and fires the calibration-complete
callback a second time. -/
theorem stale_calibration_fragment_mutates :
    calibratedState.calibration_requested = false ∧
    calibratedState.calibration = factoryCal ∧
    (handlePacket defaultConfig calibratedState pktCal1).1.calibration =
      [[5944, 3314, 12024, 4221], [7688, 4994, 13794, 5967], [41249, 0, 61440, 23]] ∧
    ((handlePacket defaultConfig calibratedState pktCal1).1.calibration == factoryCal) = false ∧
    (handlePacket defaultConfig calibratedState pktCal1).1.events =
      calibratedState.events ++ [Ev.calibrated] := by
  decide

/-- C3 fails on the code: `Wiiboard.connect` sends the register-read and
register-write commands, but the bare statement `self.status` never calls
the method, so no status request reaches the control channel; the third
message actually sent is the `self.light(0)` light command. -/
theorem connect_skips_status_request :
    (connect initState).sent = [readRegisterMsg, registerMsg, lightMsg false] ∧
    ((connect initState).sent.contains statusMsg) = false ∧
    (((connect initState).sent.map fun m => m.getD 1 0).contains COMMAND_REQUEST_STATUS)
      = false ∧
    (connect initState).calibration_requested = true := by
  decide

/-- Counterexample to C7 as stated: a status packet whose 16-bit battery
field is 400 makes the handler report a battery level of 2, which is not
a fraction in [0, 1]. -/
theorem battery_fraction_counterexample :
    (handlePacket defaultConfig initState pktStatus400).1.battery = 2 ∧
    decide ((handlePacket defaultConfig initState pktStatus400).1.battery ≤ 1) = false := by
  have hbat : (handlePacket defaultConfig initState pktStatus400).1.battery =
      (b2i (pySlice pktStatus400 7 9) : ℚ) / BATTERY_MAX := by
    rw [handlePacket, if_neg (by decide), if_pos (by decide)]
    split <;> rfl
  have h400 : b2i (pySlice pktStatus400 7 9) = 400 := by decide
  rw [hbat, h400, BATTERY_MAX]
  norm_num

/-- C7 amended: for every status packet (tag `0x20`), the handler sets the
battery level to the 16-bit big-endian value at bytes 7-8 divided by the
fixed maximum 200.0; the result lies in [0, 1] whenever that field is at
most 200 (the code never clamps, so larger fields exceed 1). -/
theorem battery_fraction_amended (cfg : Config) (st : PState) (data : List Nat)
    (hlen : 2 ≤ data.length) (htag : data.getD 1 0 = INPUT_STATUS) :
    (handlePacket cfg st data).1.battery = (b2i (pySlice data 7 9) : ℚ) / BATTERY_MAX ∧
    (b2i (pySlice data 7 9) ≤ 200 →
      0 ≤ (handlePacket cfg st data).1.battery ∧
        (handlePacket cfg st data).1.battery ≤ 1) := by
  have hguard : ¬ data.length < 2 := by omega
  have hbat : (handlePacket cfg st data).1.battery =
      (b2i (pySlice data 7 9) : ℚ) / BATTERY_MAX := by
    rw [handlePacket, if_neg hguard, if_pos htag]
    split <;> rfl
  refine ⟨hbat, fun hle => ?_⟩
  rw [hbat, BATTERY_MAX]
  constructor
  · positivity
  · rw [div_le_one (by norm_num)]
    exact_mod_cast hle

/-- Witness for C7 amended: a status packet with battery field 100 yields
a reported battery fraction of 100/200 = 0.5, inside [0, 1]. -/
theorem battery_fraction_amended_witness :
    (handlePacket defaultConfig initState pktStatus100).1.battery =
      (b2i (pySlice pktStatus100 7 9) : ℚ) / BATTERY_MAX ∧
    (0 ≤ (handlePacket defaultConfig initState pktStatus100).1.battery ∧
      (handlePacket defaultConfig initState pktStatus100).1.battery ≤ 1) :=
  ⟨(battery_fraction_amended defaultConfig initState pktStatus100
      (by decide) (by decide)).1,
   (battery_fraction_amended defaultConfig initState pktStatus100
      (by decide) (by decide)).2 (by decide)⟩

/-- C5: pushing a sample into a window currently below capacity appends
exactly one sample without eviction, the length never exceeds the
capacity, and when the push makes the length reach exactly the capacity
the controller clears the window back to length 0, so after every
`on_mass` step the length is again strictly below the capacity. -/
theorem sampling_window_bounded (cfg : Config) (st : PState) (m : MassDict)
    (h : st.samples.length < cfg.nsamples) :
    dequeAppend cfg.nsamples st.samples m = st.samples ++ [m] ∧
    (st.samples ++ [m]).length ≤ cfg.nsamples ∧
    (on_mass cfg st m).samples.length < cfg.nsamples ∧
    ((st.samples ++ [m]).length = cfg.nsamples → (on_mass cfg st m).samples = []) := by
  have hlen : (st.samples ++ [m]).length = st.samples.length + 1 := by
    simp
  have hle : (st.samples ++ [m]).length ≤ cfg.nsamples := by omega
  have hdeq : dequeAppend cfg.nsamples st.samples m = st.samples ++ [m] := by
    rw [dequeAppend]
    exact if_neg (not_lt.mpr hle)
  refine ⟨hdeq, hle, ?_, ?_⟩
  · simp only [on_mass, hdeq, on_sample, close]
    by_cases hfull : (st.samples ++ [m]).length = cfg.nsamples
    · simp only [if_pos hfull]
      split <;> simp only [List.length_nil] <;> omega
    · simp only [if_neg hfull]
      omega
  · intro hfull
    simp only [on_mass, hdeq, on_sample, close, if_pos hfull]
    split <;> rfl

/-- Witness for C5: capacity 2, starting from the empty window. -/
theorem sampling_window_bounded_witness :
    dequeAppend 2 initState.samples demoMass = initState.samples ++ [demoMass] ∧
    (initState.samples ++ [demoMass]).length ≤ 2 ∧
    (on_mass ⟨2, 0⟩ initState demoMass).samples.length < 2 ∧
    ((initState.samples ++ [demoMass]).length = 2 →
      (on_mass ⟨2, 0⟩ initState demoMass).samples = []) :=
  sampling_window_bounded ⟨2, 0⟩ initState demoMass (by decide)

/-- Unfolding of `on_sample` on a window that has just reached the
configured sample count: clear the deque, send a status request, bump
`nloop`, then either close or send light-off. -/
lemma on_sample_full_nloop (cfg : Config) (st : PState)
    (hfull : st.samples.length = cfg.nsamples) :
    on_sample cfg st =
      if cfg.nloopMax < st.nloop + 1 then
        close { st with
          samples := []
          sent := st.sent ++ [statusMsg]
          nloop := st.nloop + 1 }
      else
        { st with
          samples := []
          sent := (st.sent ++ [statusMsg]) ++ [lightMsg false]
          nloop := st.nloop + 1 } := by
  simp only [on_sample, if_pos hfull]

/-- Epoch-level run of the session controller: `runEpochs cfg st k` is the
state after the sampling window has filled `k` times (each fill modelled
by a full window of samples handed to `on_sample`). -/
def runEpochs (cfg : Config) (st : PState) : Nat → PState
  | 0 => st
  | k + 1 =>
    on_sample cfg
      { runEpochs cfg st k with samples := List.replicate cfg.nsamples demoMass }

/-- While the epoch counter stays at most the configured maximum, the
session keeps running with both channels open and `nloop` counts the
completed epochs. -/
lemma runEpochs_within (cfg : Config) (k : Nat) (hk : k ≤ cfg.nloopMax) :
    (runEpochs cfg initState k).nloop = k ∧
    (runEpochs cfg initState k).running = true ∧
    (runEpochs cfg initState k).controlOpen = true ∧
    (runEpochs cfg initState k).receiveOpen = true := by
  induction k with
  | zero => exact ⟨rfl, rfl, rfl, rfl⟩
  | succ n ih =>
    obtain ⟨ih1, ih2, ih3, ih4⟩ := ih (Nat.le_of_succ_le hk)
    have hnl : ({ runEpochs cfg initState n with
        samples := List.replicate cfg.nsamples demoMass } : PState).nloop = n := ih1
    simp only [runEpochs]
    rw [on_sample_full_nloop _ _ (by simp)]
    rw [if_neg (by rw [hnl]; omega)]
    exact ⟨by simp [ih1], by simp [ih2], by simp [ih3], by simp [ih4]⟩

/-- C6: the session terminates after exactly `maxEpochs + 1` completed
epochs.  For `k ≤ maxEpochs` fills the counter equals `k`, the running
flag is still set and both channels are open; while `k < maxEpochs` each
fill sends a status request followed by a light-off command and sampling
continues; at fill `maxEpochs + 1` the counter strictly exceeds the
maximum, the running flag is cleared and both channels are closed. -/
theorem session_epoch_termination (cfg : Config) (k : Nat) (hk : k ≤ cfg.nloopMax) :
    (runEpochs cfg initState k).nloop = k ∧
    (runEpochs cfg initState k).running = true ∧
    (runEpochs cfg initState k).controlOpen = true ∧
    (runEpochs cfg initState k).receiveOpen = true ∧
    (k < cfg.nloopMax →
      (runEpochs cfg initState (k + 1)).sent =
        (runEpochs cfg initState k).sent ++ [statusMsg, lightMsg false]) ∧
    (runEpochs cfg initState (cfg.nloopMax + 1)).nloop = cfg.nloopMax + 1 ∧
    (runEpochs cfg initState (cfg.nloopMax + 1)).running = false ∧
    (runEpochs cfg initState (cfg.nloopMax + 1)).controlOpen = false ∧
    (runEpochs cfg initState (cfg.nloopMax + 1)).receiveOpen = false := by
  obtain ⟨h1, h2, h3, h4⟩ := runEpochs_within cfg k hk
  obtain ⟨g1, g2, g3, g4⟩ := runEpochs_within cfg cfg.nloopMax le_rfl
  have hnlk : ({ runEpochs cfg initState k with
      samples := List.replicate cfg.nsamples demoMass } : PState).nloop = k := h1
  have hnlm : ({ runEpochs cfg initState cfg.nloopMax with
      samples := List.replicate cfg.nsamples demoMass } : PState).nloop = cfg.nloopMax := g1
  refine ⟨h1, h2, h3, h4, ?_, ?_, ?_, ?_, ?_⟩
  · intro hlt
    simp only [runEpochs]
    rw [on_sample_full_nloop _ _ (by simp)]
    rw [if_neg (by rw [hnlk]; omega)]
    simp
  · simp only [runEpochs]
    rw [on_sample_full_nloop _ _ (by simp)]
    rw [if_pos (by rw [hnlm]; omega)]
    simp [close, g1]
  · simp only [runEpochs]
    rw [on_sample_full_nloop _ _ (by simp)]
    rw [if_pos (by rw [hnlm]; omega)]
    rfl
  · simp only [runEpochs]
    rw [on_sample_full_nloop _ _ (by simp)]
    rw [if_pos (by rw [hnlm]; omega)]
    rfl
  · simp only [runEpochs]
    rw [on_sample_full_nloop _ _ (by simp)]
    rw [if_pos (by rw [hnlm]; omega)]
    rfl

/-- Witness for C6: with one sample per window and maximum epoch count 2,
after 1 fill the session is still running; the third fill (2 + 1)
terminates it and closes both channels. -/
theorem session_epoch_termination_witness :
    (runEpochs ⟨1, 2⟩ initState 1).nloop = 1 ∧
    (runEpochs ⟨1, 2⟩ initState 1).running = true ∧
    (runEpochs ⟨1, 2⟩ initState 1).controlOpen = true ∧
    (runEpochs ⟨1, 2⟩ initState 1).receiveOpen = true ∧
    (runEpochs ⟨1, 2⟩ initState 2).sent =
      (runEpochs ⟨1, 2⟩ initState 1).sent ++ [statusMsg, lightMsg false] ∧
    (runEpochs ⟨1, 2⟩ initState 3).nloop = 3 ∧
    (runEpochs ⟨1, 2⟩ initState 3).running = false ∧
    (runEpochs ⟨1, 2⟩ initState 3).controlOpen = false ∧
    (runEpochs ⟨1, 2⟩ initState 3).receiveOpen = false := by
  obtain ⟨h1, h2, h3, h4, h5, h6, h7, h8, h9⟩ :=
    session_epoch_termination ⟨1, 2⟩ 1 (by decide)
  exact ⟨h1, h2, h3, h4, h5 (by decide), h6, h7, h8, h9⟩

/-- Well-shaped calibration table: exactly 3 rows of 4 values. -/
def calShape (t : List (List ℚ)) : Prop :=
  t.length = 3 ∧ ∀ r ∈ t, r.length = 4

lemma calShape_fresh (d1 d2 : List Nat) : calShape [cal8 d1, cal8 d2, sentinelRow] := by
  refine ⟨rfl, ?_⟩
  intro r hr
  simp only [List.mem_cons, List.not_mem_nil, or_false] at hr
  rcases hr with rfl | rfl | rfl <;> rfl

lemma calShape_set2 (t : List (List ℚ)) (v : List ℚ) (h : calShape t) (hv : v.length = 4) :
    calShape (t.set 2 v) := by
  refine ⟨by simp [h.1], ?_⟩
  intro r hr
  rcases List.mem_or_eq_of_mem_set hr with h' | rfl
  · exact h.2 r h'
  · exact hv

lemma on_sample_calibration (cfg : Config) (st : PState) :
    (on_sample cfg st).calibration = st.calibration := by
  simp only [on_sample, close]
  split
  · split <;> rfl
  · rfl

lemma on_mass_calibration (cfg : Config) (st : PState) (m : MassDict) :
    (on_mass cfg st m).calibration = st.calibration := by
  simp only [on_mass]
  rw [on_sample_calibration]

lemma on_sample_req (cfg : Config) (st : PState) :
    (on_sample cfg st).calibration_requested = st.calibration_requested := by
  simp only [on_sample, close]
  split
  · split <;> rfl
  · rfl

lemma on_mass_req (cfg : Config) (st : PState) (m : MassDict) :
    (on_mass cfg st m).calibration_requested = st.calibration_requested := by
  simp only [on_mass]
  rw [on_sample_req]

lemma handlePacket_calShape (cfg : Config) (st : PState) (data : List Nat)
    (h : calShape st.calibration) :
    calShape (handlePacket cfg st data).1.calibration := by
  simp only [handlePacket]
  split
  · exact h
  split
  · split
    · exact h
    · exact h
  split
  · split
    · split
      · exact h
      · split
        · exact calShape_fresh _ _
        · split
          · exact calShape_set2 _ _ h rfl
          · exact h
    · split
      · exact h
      · split
        · exact calShape_fresh _ _
        · split
          · exact calShape_set2 _ _ h rfl
          · exact h
  split
  · rw [on_mass_calibration]
    exact h
  · exact h

lemma handlePacket_req_mono (cfg : Config) (st : PState) (data : List Nat)
    (hf : st.calibration_requested = false) :
    (handlePacket cfg st data).1.calibration_requested = false := by
  simp only [handlePacket]
  split
  · exact hf
  split
  · split
    · exact hf
    · exact hf
  split
  · split
    · rename_i hflag
      rw [hf] at hflag
      exact absurd hflag (by decide)
    · split
      · exact hf
      · split
        · exact hf
        · split
          · rfl
          · exact hf
  split
  · rw [on_mass_req]
    exact hf
  · exact hf

lemma handlePacket_first_fragment (cfg : Config) (st : PState) (data : List Nat)
    (hflag : st.calibration_requested = true)
    (htag : data.getD 1 0 = INPUT_READ_DATA)
    (hlen : 4 < data.length)
    (h16 : data.getD 4 0 / 16 + 1 = 16) :
    (handlePacket cfg st data).1.calibration =
      [cal8 (pySlice (pySlice data 7 23) 0 8),
       cal8 (pySlice (pySlice data 7 23) 8 16), sentinelRow] ∧
    (handlePacket cfg st data).1.calibration_requested = true := by
  have h2 : ¬ data.length < 2 := by omega
  have h4 : ¬ data.length ≤ 4 := by omega
  have hts : ¬ data.getD 1 0 = INPUT_STATUS := by rw [htag]; decide
  simp only [handlePacket, if_neg h2, if_neg hts, if_pos htag, hflag, if_pos rfl,
    if_neg h4, h16, if_true]
  exact ⟨trivial, trivial⟩

lemma handlePacket_second_fragment (cfg : Config) (st : PState) (data : List Nat)
    (hflag : st.calibration_requested = true)
    (htag : data.getD 1 0 = INPUT_READ_DATA)
    (hlen : 4 < data.length)
    (hlt : data.getD 4 0 / 16 + 1 < 16) :
    (handlePacket cfg st data).1.calibration_requested = false ∧
    (handlePacket cfg st data).1.calibration =
      st.calibration.set 2
        (cal8 (pySlice (pySlice data 7 (7 + (data.getD 4 0 / 16 + 1))) 0 8)) := by
  have h2 : ¬ data.length < 2 := by omega
  have h4 : ¬ data.length ≤ 4 := by omega
  have hne : ¬ data.getD 4 0 / 16 + 1 = 16 := by omega
  have hts : ¬ data.getD 1 0 = INPUT_STATUS := by rw [htag]; decide
  simp only [handlePacket, if_neg h2, if_neg hts, if_pos htag, hflag, if_pos rfl,
    if_neg h4, if_neg hne, if_pos hlt, if_true]
  exact ⟨rfl, rfl⟩

/-- C4: processing any packet preserves the 3-by-4 shape of the
calibration table; a cleared "calibration requested" flag stays cleared
forever; a 16-byte first fragment leaves row 2 at the sentinel with the
flag still set; a shorter second fragment clears the flag. -/
theorem calibration_table_invariant (cfg : Config) (st : PState) (data : List Nat)
    (hshape : calShape st.calibration) :
    calShape (handlePacket cfg st data).1.calibration ∧
    (st.calibration_requested = false →
      (handlePacket cfg st data).1.calibration_requested = false) ∧
    (st.calibration_requested = true → data.getD 1 0 = INPUT_READ_DATA →
      4 < data.length → data.getD 4 0 / 16 + 1 = 16 →
      (handlePacket cfg st data).1.calibration.getD 2 [] = sentinelRow ∧
      (handlePacket cfg st data).1.calibration_requested = true) ∧
    (st.calibration_requested = true → data.getD 1 0 = INPUT_READ_DATA →
      4 < data.length → data.getD 4 0 / 16 + 1 < 16 →
      (handlePacket cfg st data).1.calibration_requested = false) := by
  refine ⟨handlePacket_calShape cfg st data hshape,
    handlePacket_req_mono cfg st data, fun a b c d => ?_, fun a b c d =>
    (handlePacket_second_fragment cfg st data a b c d).1⟩
  obtain ⟨hc, hr⟩ := handlePacket_first_fragment cfg st data a b c d
  rw [hc]
  exact ⟨rfl, hr⟩

/-- Witness for C4: the first factory calibration fragment processed from
the just-connected driver keeps the table 3-by-4, leaves row 2 at the
sentinel and keeps the flag set. -/
theorem calibration_table_invariant_witness :
    calShape (handlePacket defaultConfig (connect initState) pktCal1).1.calibration ∧
    (handlePacket defaultConfig (connect initState) pktCal1).1.calibration.getD 2 [] =
      sentinelRow ∧
    (handlePacket defaultConfig (connect initState) pktCal1).1.calibration_requested
      = true := by
  obtain ⟨a, b, c, d⟩ :=
    calibration_table_invariant defaultConfig (connect initState) pktCal1
      ⟨by decide, by decide⟩
  obtain ⟨c1, c2⟩ := c (by decide) (by decide) (by decide) (by decide)
  exact ⟨a, c1, c2⟩

end Wiiboard
